import Mathlib

/-!
Shallow embedding of the serialport-go package: the `Config` value type, the
POSIX-style translator (`SetConfig` / `Config` on termios) and the
Windows-style translator (`SetConfig` / `checkConfigParam` on DCB and
COMMTIMEOUTS), together with theorems checking the specification's claims.

Go machine integers are modelled as `Int` (for the signed `int` / `int64` /
`time.Duration` values) and `Nat` (for the unsigned bit-flag fields); the Go
conversions `uint8(x)` and `uint32(x)` are modelled by reduction modulo 2^8
and 2^32 respectively, and Go's integer division (which truncates toward
zero) by `Int.tdiv`.
-/

namespace SerialPortGo

/-- Go conversion `uint8(x)` of a signed integer: the low 8 bits of the
two's-complement representation, i.e. `x` reduced into `[0, 256)`. -/
def toUint8 (x : Int) : Nat := (Int.emod x 256).toNat

/-- Go conversion `uint32(x)` of a signed integer: the low 32 bits, i.e. `x`
reduced into `[0, 2^32)`. -/
def toUint32 (x : Int) : Nat := (Int.emod x 4294967296).toNat

/-- Go `time.Duration` arithmetic: `d.Milliseconds()` is `d / 1e6` with
truncating (toward-zero) division. -/
def goMilliseconds (d : Int) : Int := Int.tdiv d 1000000

/-- Data-bit constants. Modelled from the spec: `dataBits`: integer ∈
{5,6,7,8}; the constants `DB5 … DB8` are declared in a repository file not
present under src/, and the Windows code's direct cast `uint8(cfg.DataBits)`
into the DCB `ByteSize` field shows their values are the literal bit counts. -/
def DB5 : Int := 5

/-- Data-bit constant, see `DB5`. -/
def DB6 : Int := 6

/-- Data-bit constant, see `DB5`. -/
def DB7 : Int := 7

/-- Data-bit constant, see `DB5`. -/
def DB8 : Int := 8

/-- Stop-bit constant. Modelled from the spec: `stopBits` is the enumeration
{ONE, ONE_AND_HALF, TWO}; the claims speak of `stopBits ∈ {1,2}` and the
older source version uses the literals 1 and 2, so ONE = 1 and TWO = 2; the
1.5-stop-bit constant only needs to be distinct from both. -/
def SB1 : Int := 1

/-- Stop-bit constant ONE_AND_HALF, see `SB1`. -/
def SB1_5 : Int := 15

/-- Stop-bit constant TWO, see `SB1`. -/
def SB2 : Int := 2

/-- Parity constant. Modelled from the spec: `parity` is the enumeration
{NONE, ODD, EVEN, MARK, SPACE}; the Windows code's direct cast
`uint8(cfg.Parity)` into the DCB `Parity` field (whose documented encoding is
NOPARITY=0, ODDPARITY=1, EVENPARITY=2, MARKPARITY=3, SPACEPARITY=4) fixes the
values 0..4. -/
def PN : Int := 0

/-- Parity constant ODD, see `PN`. -/
def PO : Int := 1

/-- Parity constant EVEN, see `PN`. -/
def PE : Int := 2

/-- Parity constant MARK, see `PN`. -/
def PM : Int := 3

/-- Parity constant SPACE, see `PN`. -/
def PS : Int := 4

/-- The `Config` value type of the package: baud rate, data bits, stop bits,
parity and timeout. `timeout` is a Go `time.Duration`, i.e. a signed
nanosecond count. -/
structure Config where
  baudRate : Int
  dataBits : Int
  stopBits : Int
  parity : Int
  timeout : Int
deriving Repr, DecidableEq

/-- Identity of the error a validator returns, by the `Config` field its
message names (the Go code returns `fmt.Errorf` values; only which field the
error blames is observable to the claims), plus the two non-validation error
kinds of the package. -/
inductive GoErr where
  | baudRate
  | dataBits
  | stopBits
  | parity
  | timeout
  | invalidPort
  | syscall
deriving Repr, DecidableEq

/-! ### Linux termios constants

Values of the `golang.org/x/sys/unix` constants on Linux (asm-generic
termbits.h layout used by amd64/arm64/riscv and most other ports). -/

/-- Linux `CS5` character-size bits (note: the value is 0). -/
def CS5 : Nat := 0x00

/-- Linux `CS6` character-size bits. -/
def CS6 : Nat := 0x10

/-- Linux `CS7` character-size bits. -/
def CS7 : Nat := 0x20

/-- Linux `CS8` character-size bits. -/
def CS8 : Nat := 0x30

/-- Linux `CSTOPB` two-stop-bits flag. -/
def CSTOPB : Nat := 0x40

/-- Linux `CREAD` enable-receiver flag. -/
def CREAD : Nat := 0x80

/-- Linux `PARENB` parity-enable flag. -/
def PARENB : Nat := 0x100

/-- Linux `PARODD` odd-parity flag. -/
def PARODD : Nat := 0x200

/-- Linux `CLOCAL` ignore-modem-control flag. -/
def CLOCAL : Nat := 0x800

/-- Linux `BOTHER` arbitrary-baud flag. -/
def BOTHER : Nat := 0x1000

/-- Linux `INPCK` input-parity-check flag (an `Iflag` bit). -/
def INPCK : Nat := 0x10

/-- The constant `deciseconds = time.Millisecond * 100`: 100 ms in
nanoseconds (one tenth of a second, the VTIME granularity). -/
def deciseconds : Int := 100000000

/-- The Linux termios structure, restricted to the fields the package touches:
the flag words, the speed fields, and the `Cc[VMIN]` / `Cc[VTIME]` control
characters. -/
structure Termios where
  cflag : Nat
  iflag : Nat
  ispeed : Nat
  ospeed : Nat
  vmin : Nat
  vtime : Nat
deriving Repr, DecidableEq

namespace Posix

/-- The POSIX-side validator `checkConfigParam`: checks baud rate, data bits,
stop bits and parity in that order and returns the first failure. -/
def checkConfigParam (cfg : Config) : Option GoErr :=
  if cfg.baudRate < 0 then some GoErr.baudRate
  else if cfg.dataBits ≠ DB5 ∧ cfg.dataBits ≠ DB6 ∧ cfg.dataBits ≠ DB7 ∧ cfg.dataBits ≠ DB8 then
    some GoErr.dataBits
  else if cfg.stopBits ≠ SB1 ∧ cfg.stopBits ≠ SB2 then some GoErr.stopBits
  else if cfg.parity ≠ PN ∧ cfg.parity ≠ PO ∧ cfg.parity ≠ PE then some GoErr.parity
  else none

/-- The termios2 block `SetConfig` builds from a `Config`: baseline flags
`CREAD|CLOCAL|BOTHER`, both speed fields set to the baud rate, the
data/stop/parity switches, and the VMIN/VTIME pair computed from
`t := uint8(cfg.Timeout / deciseconds)` — VMIN=0, VTIME=t when t > 0, else
VMIN=1, VTIME=0. The Go switches have no default case, so an unmatched value
contributes no bits. -/
def setConfigTermios (cfg : Config) : Termios :=
  let cflag0 := CREAD ||| CLOCAL ||| BOTHER
  let cflag1 := cflag0 |||
    (if cfg.dataBits = DB5 then CS5
     else if cfg.dataBits = DB6 then CS6
     else if cfg.dataBits = DB7 then CS7
     else if cfg.dataBits = DB8 then CS8
     else 0)
  let cflag2 := if cfg.stopBits = SB2 then cflag1 ||| CSTOPB else cflag1
  let cflag3 :=
    if cfg.parity = PO then cflag2 ||| PARENB ||| PARODD
    else if cfg.parity = PE then cflag2 ||| PARENB
    else cflag2
  let iflag :=
    if cfg.parity = PO then INPCK
    else if cfg.parity = PE then INPCK
    else 0
  let t := toUint8 (Int.tdiv cfg.timeout deciseconds)
  { cflag := cflag3
    iflag := iflag
    ispeed := toUint32 cfg.baudRate
    ospeed := toUint32 cfg.baudRate
    vmin := if 0 < t then 0 else 1
    vtime := if 0 < t then t else 0 }

/-- The reverse mapping of the method `Config()`: reconstructs a `Config`
from a termios block. The data-bits switch tests `Cflag & CSn > 0` in the
order CS5, CS6, CS7, CS8 with no default (a Go `Config` starts zeroed, so an
unmatched block yields data bits 0); stop bits come from `CSTOPB`, parity
from `PARENB`/`PARODD`, and the timeout is `Cc[VTIME] * deciseconds`. -/
def configOf (t : Termios) : Config :=
  { baudRate := (t.ospeed : Int)
    dataBits :=
      if 0 < t.cflag &&& CS5 then DB5
      else if 0 < t.cflag &&& CS6 then DB6
      else if 0 < t.cflag &&& CS7 then DB7
      else if 0 < t.cflag &&& CS8 then DB8
      else 0
    stopBits := if t.cflag &&& CSTOPB = 0 then SB1 else SB2
    parity :=
      if t.cflag &&& PARENB = 0 then PN
      else if 0 < t.cflag &&& PARODD then PO
      else PE
    timeout := (t.vtime : Int) * deciseconds }

end Posix

/-- The Windows COMMTIMEOUTS structure (`windows.CommTimeouts`), all fields
DWORDs. -/
structure CommTimeouts where
  readIntervalTimeout : Nat
  readTotalTimeoutMultiplier : Nat
  readTotalTimeoutConstant : Nat
  writeTotalTimeoutMultiplier : Nat
  writeTotalTimeoutConstant : Nat
deriving Repr, DecidableEq

/-- The Windows DCB structure (`win32DCB`), restricted to the fields the
package writes: the size stamp, baud rate, byte size, parity and stop bits
(every other field is left zeroed by the code). -/
structure Win32DCB where
  dcbLength : Nat
  baudRate : Nat
  byteSize : Nat
  parity : Nat
  stopBits : Nat
deriving Repr, DecidableEq

/-- The native calls a `SetConfig` run can issue, in order. -/
inductive NativeCall where
  | tcsets (t : Termios)
  | setCommState (d : Win32DCB)
  | setCommTimeouts (c : CommTimeouts)
deriving Repr, DecidableEq

/-- `math.MaxUint32`. -/
def maxUint32 : Nat := 4294967295

namespace Windows

/-- The lookup table `dcbByteSizeMap` (DB5→5, …, DB8→8); `none` models a key
absent from the Go map. -/
def dcbByteSizeMap (k : Int) : Option Nat :=
  if k = DB5 then some 5
  else if k = DB6 then some 6
  else if k = DB7 then some 7
  else if k = DB8 then some 8
  else none

/-- The lookup table `dcbStopBitsMap` (SB1→ONESTOPBIT=0, SB1_5→ONE5STOPBITS=1,
SB2→TWOSTOPBITS=2). -/
def dcbStopBitsMap (k : Int) : Option Nat :=
  if k = SB1 then some 0
  else if k = SB1_5 then some 1
  else if k = SB2 then some 2
  else none

/-- The lookup table `dcbParityMap` (PN→0, PO→1, PE→2, PM→3, PS→4). -/
def dcbParityMap (k : Int) : Option Nat :=
  if k = PN then some 0
  else if k = PO then some 1
  else if k = PE then some 2
  else if k = PM then some 3
  else if k = PS then some 4
  else none

/-- The Windows-side validator `checkConfigParam`: checks baud rate, then
membership of data bits, stop bits and parity in the three DCB lookup maps,
then the timeout rule `Timeout != 0 && Timeout.Milliseconds() == 0`, in that
order, returning the first failure. -/
def checkConfigParam (cfg : Config) : Option GoErr :=
  if cfg.baudRate < 0 then some GoErr.baudRate
  else if dcbByteSizeMap cfg.dataBits = none then some GoErr.dataBits
  else if dcbStopBitsMap cfg.stopBits = none then some GoErr.stopBits
  else if dcbParityMap cfg.parity = none then some GoErr.parity
  else if cfg.timeout ≠ 0 ∧ goMilliseconds cfg.timeout = 0 then some GoErr.timeout
  else none

/-- Size in bytes of `win32DCB` (`unsafe.Sizeof`), used only as the size
stamp; its exact value is irrelevant to every claim. -/
def dcbLengthVal : Nat := 28

/-- The DCB block `SetConfig` builds: size stamp, `uint32(cfg.BaudRate)`, and
the three map lookups (a Go map read of an absent key yields the zero value,
modelled by `getD 0`; after validation the keys are always present). -/
def setConfigDCB (cfg : Config) : Win32DCB :=
  { dcbLength := dcbLengthVal
    baudRate := toUint32 cfg.baudRate
    byteSize := (dcbByteSizeMap cfg.dataBits).getD 0
    parity := (dcbParityMap cfg.parity).getD 0
    stopBits := (dcbStopBitsMap cfg.stopBits).getD 0 }

/-- The COMMTIMEOUTS structure `SetConfig` writes, as a function of the
configured timeout: with `timeoutMs := uint32(cfg.Timeout.Milliseconds())`,
if `timeoutMs > 0` the interval timeout and the read multiplier are set to
`math.MaxUint32` and both total-timeout constants to `timeoutMs`; otherwise
the structure is left all-zero. -/
def setConfigCommTimeouts (timeout : Int) : CommTimeouts :=
  let timeoutMs := toUint32 (goMilliseconds timeout)
  if 0 < timeoutMs then
    { readIntervalTimeout := maxUint32
      readTotalTimeoutMultiplier := maxUint32
      readTotalTimeoutConstant := timeoutMs
      writeTotalTimeoutMultiplier := 0
      writeTotalTimeoutConstant := timeoutMs }
  else
    { readIntervalTimeout := 0
      readTotalTimeoutMultiplier := 0
      readTotalTimeoutConstant := 0
      writeTotalTimeoutMultiplier := 0
      writeTotalTimeoutConstant := 0 }

/-- The Windows `SetConfig` method: validates, then issues `SetCommState`
with the DCB, then `SetCommTimeouts` with the timeout structure, stopping at
the first failing native call. `stateOk` / `timeoutsOk` are the oracle
outcomes of the two native calls; the result is the returned error (if any)
paired with the list of native calls actually issued. -/
def setConfig (cfg : Config) (stateOk timeoutsOk : Bool) :
    Option GoErr × List NativeCall :=
  match checkConfigParam cfg with
  | some e => (some e, [])
  | none =>
    if stateOk then
      if timeoutsOk then
        (none, [NativeCall.setCommState (setConfigDCB cfg),
                NativeCall.setCommTimeouts (setConfigCommTimeouts cfg.timeout)])
      else
        (some GoErr.syscall,
         [NativeCall.setCommState (setConfigDCB cfg),
          NativeCall.setCommTimeouts (setConfigCommTimeouts cfg.timeout)])
    else
      (some GoErr.syscall, [NativeCall.setCommState (setConfigDCB cfg)])

/-- The map-based Windows `Open`: `open(name)` acquires the handle (oracle
`createOk`; on failure `CloseHandle` is called and the error returned),
then `SetConfig` runs; its error, if any, is returned with no further
cleanup — in particular the just-acquired handle is not closed. The second
component records whether a native handle is still open when `Open`
returns. -/
def Open (cfg : Config) (createOk stateOk timeoutsOk : Bool) :
    Option GoErr × Bool :=
  if createOk then
    match setConfig cfg stateOk timeoutsOk with
    | (some e, _) => (some e, true)
    | (none, _) => (none, true)
  else
    (some GoErr.invalidPort, false)

end Windows

namespace Posix

/-- The POSIX `SetConfig` method: validates, then issues exactly one
`IoctlSetTermios(TCSETS2)` native call with the termios block built from the
config. `ioctlOk` is the oracle outcome of that call; the result is the
returned error (if any) paired with the list of native calls issued. -/
def setConfig (cfg : Config) (ioctlOk : Bool) : Option GoErr × List NativeCall :=
  match checkConfigParam cfg with
  | some e => (some e, [])
  | none =>
    if ioctlOk then (none, [NativeCall.tcsets (setConfigTermios cfg)])
    else (some GoErr.syscall, [NativeCall.tcsets (setConfigTermios cfg)])

/-- The POSIX `Open`: acquires the file descriptor (oracle `openOk`), then
runs `SetConfig`; on a `SetConfig` error the just-opened descriptor is
closed before returning. The second component records whether a native
handle is still open when `Open` returns. -/
def Open (cfg : Config) (openOk ioctlOk : Bool) : Option GoErr × Bool :=
  if openOk then
    match setConfig cfg ioctlOk with
    | (some e, _) => (some e, false)
    | (none, _) => (none, true)
  else
    (some GoErr.invalidPort, false)

end Posix

end SerialPortGo


/-! ## Claim theorems -/

namespace SerialPortGo

/-- C1 (claim fails on the code): the POSIX round-trip does not reproduce the
data bits. Forward-translating a Config with dataBits = DB8 (stop bits 1,
parity NONE) and decoding the resulting termios yields data bits DB6, because
the decoder tests `Cflag & CS6 > 0` before `Cflag & CS8 > 0` and CS8 = 0x30
contains the CS6 bit 0x10; likewise DB5 decodes to 0, because CS5 = 0 makes
the test `Cflag & CS5 > 0` unsatisfiable. Stop bits and parity do round-trip
on these inputs. -/
theorem posix_roundtrip_dataBits_bug :
    (Posix.configOf (Posix.setConfigTermios ⟨9600, DB8, SB1, PN, 0⟩)).dataBits = DB6
    ∧ (Posix.configOf (Posix.setConfigTermios ⟨9600, DB5, SB1, PN, 0⟩)).dataBits = 0
    ∧ DB6 ≠ DB8 ∧ (0 : Int) ≠ DB5
    ∧ (Posix.configOf (Posix.setConfigTermios ⟨9600, DB8, SB1, PN, 0⟩)).stopBits = SB1
    ∧ (Posix.configOf (Posix.setConfigTermios ⟨9600, DB8, SB1, PN, 0⟩)).parity = PN := by
  decide

/-- C2 (claim fails on the code): the VTIME encoding wraps instead of
saturating. A valid Config with timeout 25600 ms (> 25500 ms) has
`uint8(timeout / deciseconds) = uint8(256) = 0`, so `SetConfig` stores
VMIN = 1 and VTIME = 0 (the indefinite-blocking mode) where the claim says it
must store VTIME = 255. -/
theorem posix_vtime_wraps_at_25600ms :
    Posix.checkConfigParam ⟨9600, DB8, SB1, PN, 25600000000⟩ = none
    ∧ (25600000000 : Int) > 25500 * 1000000
    ∧ (Posix.setConfigTermios ⟨9600, DB8, SB1, PN, 25600000000⟩).vmin = 1
    ∧ (Posix.setConfigTermios ⟨9600, DB8, SB1, PN, 25600000000⟩).vtime = 0
    ∧ (Posix.setConfigTermios ⟨9600, DB8, SB1, PN, 25600000000⟩).vtime ≠ 255 := by
  decide

/-- C3 counterexample: a Config with timeout = −100 ms passes the POSIX
validator (which never looks at the timeout), its timeout is < 100 ms, yet
`SetConfig` stores VTIME = 255 and VMIN = 0: Go's toward-zero division gives
−100 ms / 100 ms = −1 and `uint8(−1) = 255`. So "no Config with timeout
< 100 ms ever produces a nonzero VTIME" is false as stated. -/
theorem posix_negative_timeout_nonzero_vtime :
    Posix.checkConfigParam ⟨9600, DB8, SB1, PN, -100000000⟩ = none
    ∧ (-100000000 : Int) < 100000000
    ∧ (Posix.setConfigTermios ⟨9600, DB8, SB1, PN, -100000000⟩).vtime = 255
    ∧ (Posix.setConfigTermios ⟨9600, DB8, SB1, PN, -100000000⟩).vmin = 0 := by
  decide

/-- C3 amended: for every Config passing POSIX validation whose timeout is
nonnegative and strictly below the 100 ms granularity (including zero),
`SetConfig` stores VMIN = 1 and VTIME = 0, the block-until-one-byte mode. -/
theorem posix_subgranularity_timeout_blocking_mode (cfg : Config)
    (h0 : 0 ≤ cfg.timeout) (h1 : cfg.timeout < 100000000)
    (_hv : Posix.checkConfigParam cfg = none) :
    (Posix.setConfigTermios cfg).vmin = 1 ∧ (Posix.setConfigTermios cfg).vtime = 0 := by
  have ht : Int.tdiv cfg.timeout deciseconds = 0 :=
    Int.tdiv_eq_zero_of_lt h0 h1
  simp only [Posix.setConfigTermios, ht, toUint8]
  decide

/-- C3 witness: the amended statement at the concrete Config
(115200, DB8, SB1, PN, 50 ms). -/
theorem posix_subgranularity_timeout_blocking_mode_witness :
    (Posix.setConfigTermios ⟨115200, DB8, SB1, PN, 50000000⟩).vmin = 1
    ∧ (Posix.setConfigTermios ⟨115200, DB8, SB1, PN, 50000000⟩).vtime = 0 :=
  posix_subgranularity_timeout_blocking_mode ⟨115200, DB8, SB1, PN, 50000000⟩
    (by decide) (by decide) (by decide)

/-- C4: a timeout of 250 ms on the POSIX translator round-trips to exactly
200 ms: forward stores VTIME = 250 ms / 100 ms = 2, and the reverse mapping
reconstructs 2 × 100 ms = 200 ms. -/
theorem posix_timeout_250ms_roundtrips_to_200ms :
    (Posix.configOf (Posix.setConfigTermios ⟨9600, DB8, SB1, PN, 250000000⟩)).timeout
      = 200000000 := by
  decide

/-- C5: for every Config passing the Windows validator, if the converted
millisecond count `uint32(Timeout.Milliseconds())` is positive then the
COMMTIMEOUTS structure `SetConfig` writes has read-interval timeout and
read-total-timeout multiplier `MaxUint32` and both total-timeout constants
equal to that count; for a zero timeout it writes the all-zero structure; and
a successful `SetConfig` issues exactly the SetCommState call followed by the
SetCommTimeouts call carrying that structure. -/
theorem windows_setConfig_timeout_mapping (cfg : Config)
    (hv : Windows.checkConfigParam cfg = none) :
    (0 < toUint32 (goMilliseconds cfg.timeout) →
      Windows.setConfigCommTimeouts cfg.timeout =
        { readIntervalTimeout := maxUint32
          readTotalTimeoutMultiplier := maxUint32
          readTotalTimeoutConstant := toUint32 (goMilliseconds cfg.timeout)
          writeTotalTimeoutMultiplier := 0
          writeTotalTimeoutConstant := toUint32 (goMilliseconds cfg.timeout) })
    ∧ (cfg.timeout = 0 →
      Windows.setConfigCommTimeouts cfg.timeout =
        { readIntervalTimeout := 0
          readTotalTimeoutMultiplier := 0
          readTotalTimeoutConstant := 0
          writeTotalTimeoutMultiplier := 0
          writeTotalTimeoutConstant := 0 })
    ∧ Windows.setConfig cfg true true =
        (none, [NativeCall.setCommState (Windows.setConfigDCB cfg),
                NativeCall.setCommTimeouts (Windows.setConfigCommTimeouts cfg.timeout)]) := by
  refine ⟨?_, ?_, ?_⟩
  · intro h
    simp [Windows.setConfigCommTimeouts, h]
  · intro h
    simp only [Windows.setConfigCommTimeouts, h, goMilliseconds, toUint32]
    decide
  · simp [Windows.setConfig, hv]

/-- C5 witness: the forward timeout mapping at the default configuration
(115200, DB8, SB1, PN, 100 ms), whose millisecond count is 100. -/
theorem windows_setConfig_timeout_mapping_witness :
    Windows.setConfigCommTimeouts (100000000 : Int) =
      { readIntervalTimeout := maxUint32
        readTotalTimeoutMultiplier := maxUint32
        readTotalTimeoutConstant := 100
        writeTotalTimeoutMultiplier := 0
        writeTotalTimeoutConstant := 100 } := by
  have h := windows_setConfig_timeout_mapping ⟨115200, DB8, SB1, PN, 100000000⟩ (by decide)
  exact (h.1 (by decide)).trans (by decide)

/-- C6: a Config whose timeout is non-zero but converts to zero whole
milliseconds is always rejected by the Windows validator, and whenever the
earlier field checks pass (nonnegative baud rate, data bits, stop bits and
parity present in the DCB maps) the reported error is the timeout error, so a
non-zero timeout request never silently reaches the cleared native
timeout setting. -/
theorem windows_subms_timeout_rejected (cfg : Config)
    (h0 : cfg.timeout ≠ 0) (h1 : goMilliseconds cfg.timeout = 0) :
    Windows.checkConfigParam cfg ≠ none
    ∧ (0 ≤ cfg.baudRate →
       Windows.dcbByteSizeMap cfg.dataBits ≠ none →
       Windows.dcbStopBitsMap cfg.stopBits ≠ none →
       Windows.dcbParityMap cfg.parity ≠ none →
       Windows.checkConfigParam cfg = some GoErr.timeout) := by
  constructor
  · unfold Windows.checkConfigParam
    split_ifs <;> simp_all
  · intro hb hd hs hp
    unfold Windows.checkConfigParam
    rw [if_neg (by omega), if_neg hd, if_neg hs, if_neg hp, if_pos ⟨h0, h1⟩]

/-- C6 witness: the rule at the concrete Config (9600, DB8, SB1, PN, 500 µs),
whose timeout is non-zero but below one millisecond. -/
theorem windows_subms_timeout_rejected_witness :
    Windows.checkConfigParam ⟨9600, DB8, SB1, PN, 500000⟩ = some GoErr.timeout :=
  (windows_subms_timeout_rejected ⟨9600, DB8, SB1, PN, 500000⟩ (by decide) (by decide)).2
    (by decide) (by decide) (by decide) (by decide)

/-- C7 (claim fails on the code): the map-based Windows `Open` does not roll
back. With a successfully acquired handle and a Config rejected by
validation (dataBits = 0), `Open` returns the configuration error while the
native handle is still open (second component `true`); the POSIX `Open` on
the same input closes the handle before returning (second component
`false`). -/
theorem windows_open_leaks_handle_on_setConfig_failure :
    Windows.Open ⟨9600, 0, SB1, PN, 0⟩ true true true = (some GoErr.dataBits, true)
    ∧ Posix.Open ⟨9600, 0, SB1, PN, 0⟩ true true = (some GoErr.dataBits, false) := by
  decide

/-- C8 counterexample: a Config with baudRate = −1 and dataBits = 0 (outside
{5,6,7,8}) is rejected by both validators with the baud-rate error, not the
dataBits error: both check the baud rate first, so the reported error is not
independent of the other fields. -/
theorem validator_baudRate_checked_before_dataBits :
    Posix.checkConfigParam ⟨-1, 0, SB1, PN, 0⟩ = some GoErr.baudRate
    ∧ Windows.checkConfigParam ⟨-1, 0, SB1, PN, 0⟩ = some GoErr.baudRate
    ∧ GoErr.baudRate ≠ GoErr.dataBits
    ∧ (0 : Int) ≠ DB5 ∧ (0 : Int) ≠ DB6 ∧ (0 : Int) ≠ DB7 ∧ (0 : Int) ≠ DB8 := by
  decide

/-- C8 amended: for every Config with nonnegative baudRate and dataBits
outside {5,6,7,8}, both validators reject with the dataBits error, regardless
of the stop-bit, parity and timeout fields. -/
theorem validator_rejects_invalid_dataBits (cfg : Config)
    (hb : 0 ≤ cfg.baudRate)
    (hd : cfg.dataBits ≠ DB5 ∧ cfg.dataBits ≠ DB6 ∧ cfg.dataBits ≠ DB7 ∧ cfg.dataBits ≠ DB8) :
    Posix.checkConfigParam cfg = some GoErr.dataBits
    ∧ Windows.checkConfigParam cfg = some GoErr.dataBits := by
  constructor
  · unfold Posix.checkConfigParam
    rw [if_neg (by omega), if_pos hd]
  · have hmap : Windows.dcbByteSizeMap cfg.dataBits = none := by
      unfold Windows.dcbByteSizeMap
      rw [if_neg hd.1, if_neg hd.2.1, if_neg hd.2.2.1, if_neg hd.2.2.2]
    unfold Windows.checkConfigParam
    rw [if_neg (by omega), if_pos hmap]

/-- C8 amended witness: a Config with baudRate 9600 and dataBits 9 is
rejected by both validators with the dataBits error. -/
theorem validator_rejects_invalid_dataBits_witness :
    Posix.checkConfigParam ⟨9600, 9, SB1, PN, 0⟩ = some GoErr.dataBits
    ∧ Windows.checkConfigParam ⟨9600, 9, SB1, PN, 0⟩ = some GoErr.dataBits :=
  validator_rejects_invalid_dataBits ⟨9600, 9, SB1, PN, 0⟩ (by decide) (by decide)

/-- C9: whenever the validator rejects a Config, `SetConfig` returns exactly
the validation error and the list of native calls issued is empty — no
set-attribute, SetCommState or SetCommTimeouts call is made, whatever the
native-call oracle outcomes would have been. -/
theorem setConfig_no_native_call_on_validation_failure (cfg : Config) (e : GoErr) :
    (Posix.checkConfigParam cfg = some e →
       ∀ ioctlOk, Posix.setConfig cfg ioctlOk = (some e, []))
    ∧ (Windows.checkConfigParam cfg = some e →
       ∀ stateOk timeoutsOk, Windows.setConfig cfg stateOk timeoutsOk = (some e, [])) := by
  constructor
  · intro h ioctlOk
    simp [Posix.setConfig, h]
  · intro h stateOk timeoutsOk
    simp [Windows.setConfig, h]

/-- C9 witness: both SetConfigs at the invalid Config (9600, 0, SB1, PN, 0)
return the dataBits validation error with no native call. -/
theorem setConfig_no_native_call_on_validation_failure_witness :
    Posix.setConfig ⟨9600, 0, SB1, PN, 0⟩ true = (some GoErr.dataBits, [])
    ∧ Windows.setConfig ⟨9600, 0, SB1, PN, 0⟩ true true = (some GoErr.dataBits, []) :=
  ⟨(setConfig_no_native_call_on_validation_failure ⟨9600, 0, SB1, PN, 0⟩ GoErr.dataBits).1
      (by decide) true,
   (setConfig_no_native_call_on_validation_failure ⟨9600, 0, SB1, PN, 0⟩ GoErr.dataBits).2
      (by decide) true true⟩

/-- C10: the Windows millisecond timeout is truncated to 32 bits, so any two
timeouts whose millisecond counts agree modulo 2^32 produce the identical
COMMTIMEOUTS structure; moreover the valid Config with timeout 2^32 ms
(= 4294967296000000 ns) passes validation yet is applied as the all-zero
(no-timeout) structure, and the valid Config with timeout −1 ms passes
validation and is applied with both total-timeout constants equal to the
wrapped value 4294967295. -/
theorem windows_timeout_truncates_mod_2pow32 (t1 t2 : Int)
    (h : Int.emod (goMilliseconds t1) 4294967296
       = Int.emod (goMilliseconds t2) 4294967296) :
    Windows.setConfigCommTimeouts t1 = Windows.setConfigCommTimeouts t2
    ∧ Windows.checkConfigParam ⟨9600, DB8, SB1, PN, 4294967296000000⟩ = none
    ∧ Windows.setConfigCommTimeouts 4294967296000000 =
        { readIntervalTimeout := 0
          readTotalTimeoutMultiplier := 0
          readTotalTimeoutConstant := 0
          writeTotalTimeoutMultiplier := 0
          writeTotalTimeoutConstant := 0 }
    ∧ Windows.checkConfigParam ⟨9600, DB8, SB1, PN, -1000000⟩ = none
    ∧ Windows.setConfigCommTimeouts (-1000000) =
        { readIntervalTimeout := maxUint32
          readTotalTimeoutMultiplier := maxUint32
          readTotalTimeoutConstant := 4294967295
          writeTotalTimeoutMultiplier := 0
          writeTotalTimeoutConstant := 4294967295 } := by
  refine ⟨?_, by decide, by decide, by decide, by decide⟩
  unfold Windows.setConfigCommTimeouts toUint32
  rw [h]

/-- C10 witness: a zero timeout and the timeout 2^32 ms have congruent
millisecond counts and hence the identical (cleared) native
timeout structure. -/
theorem windows_timeout_truncates_mod_2pow32_witness :
    Windows.setConfigCommTimeouts 0 = Windows.setConfigCommTimeouts 4294967296000000 :=
  (windows_timeout_truncates_mod_2pow32 0 4294967296000000 (by decide)).1

end SerialPortGo
